import Mathlib

/-!
Verification of the SipHook call-session controller.

The repository ships two variants of the provider:
* `src/sip.tsx` (first `SipProvider`): invite admission with a busy check,
  auto-answer, blind/attended transfer, DTMF, and a hangup that cleans
  observable flags before raising on a terminated session.
* `src/unnamed/part_000`: an earlier variant whose `onInvite` performs no
  admission check, whose `answer` is gated on the auto-answer flag, and whose
  `hangup` raises on a terminated session without any cleanup.

Both variants are embedded below.  Machine state is the provider's React
state (`externalNumber`, `isReceivedCall`, `currentCall`, `session`/`dialog`,
`mediaAttached` for the playback sink); calls into the signaling engine and
the ring player are recorded as an emitted event list, and a thrown
exception is an `error` field in the operation result.
-/

/-- The five sip.js session states mirrored by the controller. -/
inductive SessionState
  | Initial
  | Establishing
  | Established
  | Terminating
  | Terminated
deriving DecidableEq

/-- Direction of a call session: `Inviter` instances are outbound,
`Invitation` instances are inbound. -/
inductive Direction
  | Inbound
  | Outbound
deriving DecidableEq

/-- One call session stored in the provider's session slot: its direction,
its last known signaling state, and its remote identifier (the target URI
for an outbound `Inviter`, the caller display name for an inbound
`Invitation`). -/
structure SipSession where
  direction : Direction
  state : SessionState
  remote : String
deriving DecidableEq

/-- Target of a `refer` request: either a plain URI (blind transfer) or a
replacement session (attended transfer). -/
inductive ReferTarget
  | uri (addr : String)
  | session (sess : SipSession)
deriving DecidableEq

/-- Requests issued to the signaling engine, the ring player and the media
sink, recorded in the order the source issues them. -/
inductive Event
  | reject (statusCode : Option Nat)
  | accept
  | cancel
  | bye
  | newInviter (target : String)
  | inviteSent (target : String)
  | refer (t : ReferTarget)
  | info (body : String)
  | startRing
  | endRing
  | attachMedia
  | detachMedia
deriving DecidableEq

/-- Transfer mode, named as in the source (`type TypeTranfer`). -/
inductive TypeTranfer
  | BLIND
  | ATTENDED
deriving DecidableEq

/-- Observable state of the `src/sip.tsx` provider.  `session = none` models
the initial `{} as Session` placeholder; `mediaAttached` models whether the
remote media element currently holds a stream (`handleSetupMedia` sets it,
`handleCleanMedia` clears it). -/
structure SipState where
  stateExtension : String
  server : String
  externalNumber : String
  isReceivedCall : Bool
  session : Option SipSession
  currentCall : Bool
  autoAnswer : Bool
  mediaAttached : Bool
deriving DecidableEq

/-- Observable state of the `src/unnamed/part_000` provider, whose session
slot is named `dialog`. -/
structure DialogState where
  stateExtension : String
  server : String
  externalNumber : String
  isReceivedCall : Bool
  dialog : Option SipSession
  currentCall : Bool
  autoAnswer : Bool
deriving DecidableEq

/-- Result of an operation that may throw: the state after all performed
updates, the emitted requests, and the raised error message if any. -/
structure OpResult (σ : Type) where
  state : σ
  events : List Event
  error : Option String
deriving DecidableEq

/-- A session slot is live when it holds a session that is not yet
terminated (spec glossary: live = not TERMINATED). -/
def isLive : Option SipSession → Bool
  | none => false
  | some c => c.state ≠ SessionState.Terminated

/-- Characters after the first occurrence of the separator `//`, or `none`
when the separator does not occur. -/
def dropThroughSep : List Char → Option (List Char)
  | [] => none
  | '/' :: '/' :: rest => some rest
  | _ :: rest => dropThroughSep rest

/-- Characters before the next occurrence of the separator `//`. -/
def takeUntilSep : List Char → List Char
  | [] => []
  | '/' :: '/' :: _ => []
  | c :: rest => c :: takeUntilSep rest

/-- Host part extraction `server.split('//')[1]`: the segment between the
first `//` and the following `//` or the end of the string; an absent
segment renders as the string `undefined` in the template literal, as in
JavaScript. -/
def hostPart (server : String) : String :=
  match dropThroughSep server.data with
  | none => "undefined"
  | some rest => String.mk (takeUntilSep rest)

/-- Target address `sip:<destination>@<host part of server>` as built in
`call` and `transfer`. -/
def mkTarget (destination server : String) : String :=
  "sip:" ++ destination ++ "@" ++ hostPart server

/-- Embedding of `connect` restricted to the modelled state: it records the
server URL (`setServer(serverUrl)`). -/
def connect (s : SipState) (serverUrl : String) : SipState :=
  { s with server := serverUrl }

/-- Embedding of the delegate `onRegister` callback. -/
def onRegister (s : SipState) : SipState :=
  { s with stateExtension := "REGISTERED" }

/-- Embedding of `onInvite` in `src/sip.tsx`: reject 486 when a call is
current; otherwise store the caller and the invitation, then either ring
(manual answer) or accept (auto answer), and mark the call current. -/
def onInvite (s : SipState) (displayName : String) : SipState × List Event :=
  if s.currentCall then
    (s, [Event.reject (some 486)])
  else
    let s1 := { s with externalNumber := displayName,
                       session := some { direction := Direction.Inbound,
                                         state := SessionState.Initial,
                                         remote := displayName } }
    if !s1.autoAnswer then
      ({ s1 with isReceivedCall := true, currentCall := true }, [Event.startRing])
    else
      ({ s1 with currentCall := true }, [Event.accept])

/-- Embedding of `call` in `src/sip.tsx`: record the destination, build the
target, construct an `Inviter`, send its invite, store it as the session
and mark the call current.  No occupancy check is performed. -/
def call (s : SipState) (destination : String) : SipState × List Event :=
  let target := mkTarget destination s.server
  ({ s with externalNumber := destination,
            session := some { direction := Direction.Outbound,
                              state := SessionState.Initial,
                              remote := target },
            currentCall := true },
   [Event.newInviter target, Event.inviteSent target])

/-- Embedding of `answer` in `src/sip.tsx`: `(session as Invitation).accept()`,
unconditionally.  On the empty placeholder the call throws. -/
def answer (s : SipState) : OpResult SipState :=
  match s.session with
  | none => { state := s, events := [], error := some "TypeError: accept is not a function" }
  | some _ => { state := s, events := [Event.accept], error := none }

/-- Embedding of `dtmf` in `src/sip.tsx`: send an INFO request whose body is
the template literal built from the signal and the duration.  No local
state is touched. -/
def dtmf (s : SipState) (signalNumber : String) (duration : Nat) : OpResult SipState :=
  match s.session with
  | none => { state := s, events := [], error := some "TypeError: info is not a function" }
  | some _ =>
      { state := s,
        events := [Event.info ("Signal=" ++ signalNumber ++ "\r\nDuration=" ++ toString duration)],
        error := none }

/-- Embedding of `transfer` in `src/sip.tsx`: build the target from the
destination and the registered server's host part; BLIND refers the stored
session to that URI; ATTENDED constructs a replacement `Inviter` (without
sending its invite) and refers the stored session to it.  The session's
state is not inspected. -/
def transfer (s : SipState) (destination : String) (mode : TypeTranfer) : OpResult SipState :=
  match s.session with
  | none => { state := s, events := [], error := some "TypeError: refer is not a function" }
  | some _ =>
      let target := mkTarget destination s.server
      match mode with
      | TypeTranfer.BLIND =>
          { state := s, events := [Event.refer (ReferTarget.uri target)], error := none }
      | TypeTranfer.ATTENDED =>
          { state := s,
            events := [Event.newInviter target,
                       Event.refer (ReferTarget.session
                         { direction := Direction.Outbound,
                           state := SessionState.Initial,
                           remote := target })],
            error := none }

/-- Embedding of `hangup` in `src/sip.tsx`.  Initial/Establishing: cancel
when outbound, otherwise nothing.  Established: bye (outbound) or reject
(inbound) with flag clearing and ring stop.  Terminating/Terminated: bye,
clear the observable flags, then throw.  An empty slot falls to `default`. -/
def hangup (s : SipState) : OpResult SipState :=
  match s.session with
  | none => { state := s, events := [], error := none }
  | some c =>
    match c.state with
    | SessionState.Initial | SessionState.Establishing =>
        if c.direction = Direction.Outbound then
          { state := s, events := [Event.cancel], error := none }
        else
          { state := s, events := [], error := none }
    | SessionState.Established =>
        if c.direction = Direction.Outbound then
          { state := { s with externalNumber := "", currentCall := false },
            events := [Event.bye, Event.endRing], error := none }
        else
          { state := { s with externalNumber := "", isReceivedCall := false, currentCall := false },
            events := [Event.reject none, Event.endRing], error := none }
    | SessionState.Terminating | SessionState.Terminated =>
        { state := { s with externalNumber := "", currentCall := false, isReceivedCall := false },
          events := [Event.bye],
          error := some "Cannot terminate a session that is already terminated" }

/-- Mirror a pushed state-change notification into the stored session's
state field (the notification reports the transition the engine already
performed on the underlying call handle). -/
def mirrorState (s : SipState) (n : SessionState) : SipState :=
  { s with session := s.session.map (fun c => { c with state := n }) }

/-- Embedding of the `stateChange` listener installed by the `useEffect` in
`src/sip.tsx` (identical in `src/unnamed/part_000`): Establishing stops the
ring; Established attaches media; Terminated clears the caller identifier,
detaches media, clears the received and current-call flags and stops the
ring; every other notification (including Terminating) does nothing. -/
def onStateChange (s : SipState) (n : SessionState) : SipState × List Event :=
  match n with
  | SessionState.Establishing => (mirrorState s n, [Event.endRing])
  | SessionState.Established =>
      ({ mirrorState s n with mediaAttached := true }, [Event.attachMedia])
  | SessionState.Terminated =>
      ({ mirrorState s n with externalNumber := "", mediaAttached := false,
                              isReceivedCall := false, currentCall := false },
       [Event.detachMedia, Event.endRing])
  | _ => (mirrorState s n, [])

/-- Run a sequence of state-change notifications, collecting the emitted
requests in order. -/
def runNotif (s : SipState) : List SessionState → SipState × List Event
  | [] => (s, [])
  | n :: rest =>
      let step := onStateChange s n
      let next := runNotif step.1 rest
      (next.1, step.2 ++ next.2)

/-- Specification-side media step, following the spec's words for the
amended invariant: media becomes attached on an ESTABLISHED notification,
detached on a TERMINATED notification, and is untouched by every other
notification (in particular by TERMINATING). -/
def mediaStep (b : Bool) (n : SessionState) : Bool :=
  match n with
  | SessionState.Established => true
  | SessionState.Terminated => false
  | _ => b

/-- Number of media-attach requests in an event trace. -/
def countAttach : List Event → Nat
  | [] => 0
  | e :: r => (if e = Event.attachMedia then 1 else 0) + countAttach r

/-- Number of media-detach requests in an event trace. -/
def countDetach : List Event → Nat
  | [] => 0
  | e :: r => (if e = Event.detachMedia then 1 else 0) + countDetach r

/-- Number of ESTABLISHED notifications in a notification sequence. -/
def countEstablished : List SessionState → Nat
  | [] => 0
  | n :: r => (if n = SessionState.Established then 1 else 0) + countEstablished r

/-- Number of TERMINATED notifications in a notification sequence. -/
def countTerminated : List SessionState → Nat
  | [] => 0
  | n :: r => (if n = SessionState.Terminated then 1 else 0) + countTerminated r

/-- Embedding of `onInvite` in `src/unnamed/part_000`: no admission check of
any kind — the caller identifier and dialog slot are always overwritten,
the received flag and current-call flag set, and the ring started. -/
def onInvite_p0 (s : DialogState) (displayName : String) : DialogState × List Event :=
  ({ s with externalNumber := displayName,
            dialog := some { direction := Direction.Inbound,
                             state := SessionState.Initial,
                             remote := displayName },
            isReceivedCall := true,
            currentCall := true },
   [Event.startRing])

/-- Embedding of `answer` in `src/unnamed/part_000`:
`autoAnswer && (dialog as Invitation).accept()` — the accept happens only
when the auto-answer flag is true. -/
def answer_p0 (s : DialogState) : OpResult DialogState :=
  if s.autoAnswer then
    match s.dialog with
    | none => { state := s, events := [], error := some "TypeError: accept is not a function" }
    | some _ => { state := s, events := [Event.accept], error := none }
  else
    { state := s, events := [], error := none }

/-- Embedding of `dtmf` in `src/unnamed/part_000`, textually identical to
the `src/sip.tsx` version but acting on the `dialog` slot. -/
def dtmf_p0 (s : DialogState) (signalNumber : String) (duration : Nat) : OpResult DialogState :=
  match s.dialog with
  | none => { state := s, events := [], error := some "TypeError: info is not a function" }
  | some _ =>
      { state := s,
        events := [Event.info ("Signal=" ++ signalNumber ++ "\r\nDuration=" ++ toString duration)],
        error := none }

/-- Embedding of `hangup` in `src/unnamed/part_000`.  Initial/Establishing:
cancel (outbound) or reject (inbound), clear the caller identifier and the
received and current-call flags, stop the ring.  Established: bye and clear
the flags.  Terminating/Terminated: throw with no cleanup and no request. -/
def hangup_p0 (s : DialogState) : OpResult DialogState :=
  match s.dialog with
  | none => { state := s, events := [], error := none }
  | some c =>
    match c.state with
    | SessionState.Initial | SessionState.Establishing =>
        if c.direction = Direction.Outbound then
          { state := { s with externalNumber := "", isReceivedCall := false, currentCall := false },
            events := [Event.cancel, Event.endRing], error := none }
        else
          { state := { s with externalNumber := "", isReceivedCall := false, currentCall := false },
            events := [Event.reject none, Event.endRing], error := none }
    | SessionState.Established =>
        { state := { s with externalNumber := "", currentCall := false, isReceivedCall := false },
          events := [Event.bye], error := none }
    | SessionState.Terminating | SessionState.Terminated =>
        { state := s, events := [],
          error := some "Cannot terminate a session that is already terminated" }

/-- Provider state right after the `useState` initializers. -/
def initialState : SipState :=
  { stateExtension := "DISCONNECTED", server := "", externalNumber := "",
    isReceivedCall := false, session := none, currentCall := false,
    autoAnswer := false, mediaAttached := false }

/-- Registered endpoint: `connect` has recorded the server and the register
notification has arrived. -/
def sReg : SipState := onRegister (connect initialState "wss://sip.example.com")

/-- State after an inbound invite from 2002 is admitted with auto-answer
off: inbound session in INITIAL, received flag set, ring started. -/
def sLiveInbound : SipState := (onInvite sReg "2002").1

/-- State after `call("1001")` from the registered endpoint: outbound
session in INITIAL. -/
def sOutInit : SipState := (call sReg "1001").1

/-- Outbound call after the Establishing and Established notifications:
session ESTABLISHED, media attached. -/
def sEstOut : SipState :=
  (runNotif sOutInit [SessionState.Establishing, SessionState.Established]).1

/-- A terminated outbound session whose observable flags are still set. -/
def cTermOut : SipSession :=
  { direction := Direction.Outbound, state := SessionState.Terminated,
    remote := "sip:1001@sip.example.com" }

/-- Controller state holding `cTermOut` with stale observable flags. -/
def sTermOut : SipState :=
  { sReg with externalNumber := "1001", currentCall := true, session := some cTermOut }

/-- Initial part_000 state on a registered endpoint. -/
def p0Init : DialogState :=
  { stateExtension := "REGISTERED", server := "wss://sip.example.com",
    externalNumber := "", isReceivedCall := false, dialog := none,
    currentCall := false, autoAnswer := false }

/-- part_000 state with a live established inbound call from 2002. -/
def p0Live : DialogState :=
  { p0Init with externalNumber := "2002",
                dialog := some { direction := Direction.Inbound,
                                 state := SessionState.Established,
                                 remote := "2002" },
                isReceivedCall := true, currentCall := true }

/-- part_000 state whose dialog has already reached TERMINATED while the
observable flags are still set. -/
def p0Term : DialogState :=
  { p0Live with dialog := some { direction := Direction.Inbound,
                                 state := SessionState.Terminated,
                                 remote := "2002" } }

/-- An inbound ringing dialog in part_000 with auto-answer off. -/
def cInbInit : SipSession :=
  { direction := Direction.Inbound, state := SessionState.Initial, remote := "2002" }

/-- part_000 state ringing on an inbound INITIAL dialog, auto-answer off. -/
def p0Ring : DialogState :=
  { p0Init with externalNumber := "2002", dialog := some cInbInit,
                isReceivedCall := true, currentCall := true }

/-- part_000 registered state with auto-answer enabled. -/
def p0Auto : DialogState := { p0Init with autoAnswer := true }

/-- sip.tsx registered state with auto-answer enabled. -/
def sAuto : SipState := { sReg with autoAnswer := true }

/-- The outbound session stored in `sEstOut`. -/
def cEstOut : SipSession :=
  { direction := Direction.Outbound, state := SessionState.Established,
    remote := "sip:1001@sip.example.com" }

/-- Claim C1 (counterexample): with a live inbound session in the slot,
`call()` installs a second, distinct live session — the live-session slot
is silently overwritten, so session creation is not guarded by the
occupancy of the slot. -/
theorem call_overwrites_live_session :
    isLive sLiveInbound.session = true ∧
    (call sLiveInbound "1001").1.session ≠ sLiveInbound.session ∧
    isLive (call sLiveInbound "1001").1.session = true := by decide

/-- Claim C1 (amended): inbound admission does guard the slot — when a call
is current, `onInvite` leaves the whole state unchanged — but `call()`
performs no occupancy check: it always installs a fresh outbound INITIAL
session and marks the call current, even while a call is already current. -/
theorem onInvite_guards_but_call_overwrites (s : SipState) (name dest : String)
    (h : s.currentCall = true) :
    (onInvite s name).1 = s ∧
    (call s dest).1.session =
      some { direction := Direction.Outbound, state := SessionState.Initial,
             remote := mkTarget dest s.server } ∧
    (call s dest).1.currentCall = true := by
  refine ⟨?_, ?_, ?_⟩ <;> simp [onInvite, call, h]

/-- Claim C1 witness: the amended statement evaluated on a state holding a
live inbound call. -/
theorem onInvite_guards_but_call_overwrites_witness :
    sLiveInbound.currentCall = true ∧
    ((onInvite sLiveInbound "3003").1 = sLiveInbound ∧
     (call sLiveInbound "1001").1.session =
       some { direction := Direction.Outbound, state := SessionState.Initial,
              remote := mkTarget "1001" sLiveInbound.server } ∧
     (call sLiveInbound "1001").1.currentCall = true) :=
  ⟨by decide, onInvite_guards_but_call_overwrites sLiveInbound "3003" "1001" (by decide)⟩

/-- Claim C2 (theorem, amended to the `src/sip.tsx` variant): an inbound
invite arriving while a call is current is answered with a single reject
carrying status 486, and the whole observable state — session reference,
externalNumber, isReceivedCall, currentCall — is returned unchanged. -/
theorem onInvite_busy_rejects_486 (s : SipState) (name : String)
    (h : s.currentCall = true) :
    onInvite s name = (s, [Event.reject (some 486)]) := by
  simp [onInvite, h]

/-- Claim C2 witness: the busy rejection evaluated on a live inbound call. -/
theorem onInvite_busy_rejects_486_witness :
    sLiveInbound.currentCall = true ∧
    onInvite sLiveInbound "3003" = (sLiveInbound, [Event.reject (some 486)]) :=
  ⟨by decide, onInvite_busy_rejects_486 sLiveInbound "3003" (by decide)⟩

/-- Claim C2 (counterexample): in the `src/unnamed/part_000` variant an
inbound invite arriving while a live established call exists is not
rejected — no reject request is emitted (only a ring start), and the stored
dialog and caller identifier are both replaced. -/
theorem onInvite_p0_admits_while_live :
    p0Live.currentCall = true ∧
    isLive p0Live.dialog = true ∧
    (onInvite_p0 p0Live "3003").2 = [Event.startRing] ∧
    (onInvite_p0 p0Live "3003").1.dialog ≠ p0Live.dialog ∧
    (onInvite_p0 p0Live "3003").1.externalNumber ≠ p0Live.externalNumber := by decide

/-- Claim C3 (theorem, amended to the `src/sip.tsx` variant): hangup on a
TERMINATING or TERMINATED session issues the best-effort bye, clears
externalNumber, currentCall and isReceivedCall, and only then raises the
already-terminated error; a second hangup on the resulting state raises
again and still leaves all three observable flags cleared. -/
theorem hangup_terminated_cleans_then_errors (s : SipState) (c : SipSession)
    (hs : s.session = some c)
    (hst : c.state = SessionState.Terminating ∨ c.state = SessionState.Terminated) :
    hangup s =
      { state := { s with externalNumber := "", currentCall := false, isReceivedCall := false },
        events := [Event.bye],
        error := some "Cannot terminate a session that is already terminated" } ∧
    (hangup (hangup s).state).state.externalNumber = "" ∧
    (hangup (hangup s).state).state.currentCall = false ∧
    (hangup (hangup s).state).state.isReceivedCall = false ∧
    (hangup (hangup s).state).error =
      some "Cannot terminate a session that is already terminated" := by
  have h1 : hangup s =
      { state := { s with externalNumber := "", currentCall := false, isReceivedCall := false },
        events := [Event.bye],
        error := some "Cannot terminate a session that is already terminated" } := by
    rcases hst with h | h <;> simp [hangup, hs, h]
  refine ⟨h1, ?_, ?_, ?_, ?_⟩ <;>
    rw [h1] <;> rcases hst with h | h <;> simp [hangup, hs, h]

/-- Claim C3 witness: the cleanup-then-error behaviour evaluated on a
terminated outbound session with stale flags. -/
theorem hangup_terminated_cleans_then_errors_witness :
    sTermOut.session = some cTermOut ∧
    (hangup sTermOut =
      { state := { sTermOut with externalNumber := "", currentCall := false,
                                 isReceivedCall := false },
        events := [Event.bye],
        error := some "Cannot terminate a session that is already terminated" } ∧
     (hangup (hangup sTermOut).state).state.externalNumber = "" ∧
     (hangup (hangup sTermOut).state).state.currentCall = false ∧
     (hangup (hangup sTermOut).state).state.isReceivedCall = false ∧
     (hangup (hangup sTermOut).state).error =
       some "Cannot terminate a session that is already terminated") :=
  ⟨by decide, hangup_terminated_cleans_then_errors sTermOut cTermOut (by decide) (Or.inr (by decide))⟩

/-- Claim C3 (counterexample): in the `src/unnamed/part_000` variant hangup
on a TERMINATED dialog raises the already-terminated error while skipping
the cleanup entirely — the caller identifier, received flag and
current-call flag keep their stale values and no request is issued. -/
theorem hangup_p0_skips_cleanup :
    hangup_p0 p0Term =
      { state := p0Term, events := [],
        error := some "Cannot terminate a session that is already terminated" } ∧
    p0Term.externalNumber = "2002" ∧
    p0Term.currentCall = true ∧
    p0Term.isReceivedCall = true := by decide

/-- Claim C4 (counterexample): drive an outbound call through Establishing,
Established, then Terminating.  Media is still attached while the session's
state is TERMINATING, the step into TERMINATING emits nothing (no detach),
and no detach request occurs anywhere in the trace — contradicting
"media attached iff ESTABLISHED" and "detach on every transition away from
ESTABLISHED including into TERMINATING". -/
theorem media_attached_in_terminating :
    (runNotif sOutInit [SessionState.Establishing, SessionState.Established,
                        SessionState.Terminating]).1.mediaAttached = true ∧
    (runNotif sOutInit [SessionState.Establishing, SessionState.Established,
                        SessionState.Terminating]).1.session =
      some { direction := Direction.Outbound, state := SessionState.Terminating,
             remote := "sip:1001@sip.example.com" } ∧
    (onStateChange (runNotif sOutInit [SessionState.Establishing,
                        SessionState.Established]).1 SessionState.Terminating).2 = [] ∧
    countDetach (runNotif sOutInit [SessionState.Establishing, SessionState.Established,
                        SessionState.Terminating]).2 = 0 := by decide

/-- Claim C4 (amended): over every notification sequence, the media flag
evolves exactly by "attach on an ESTABLISHED notification, detach on a
TERMINATED notification, unchanged otherwise (in particular on
TERMINATING)"; attach requests are issued exactly once per ESTABLISHED
notification and detach requests exactly once per TERMINATED notification
(so detaching an already-detached sink recurs only with TERMINATED and is
harmless: the flag is simply set to false again). -/
theorem media_tracks_established_terminated (s : SipState) (l : List SessionState) :
    (runNotif s l).1.mediaAttached = List.foldl mediaStep s.mediaAttached l ∧
    countAttach (runNotif s l).2 = countEstablished l ∧
    countDetach (runNotif s l).2 = countTerminated l := by
  induction l generalizing s with
  | nil => simp [runNotif, countAttach, countDetach, countEstablished, countTerminated]
  | cons n rest ih =>
      obtain ⟨ih1, ih2, ih3⟩ := ih (onStateChange s n).1
      cases n <;>
        simp_all [runNotif, onStateChange, mirrorState, mediaStep,
                  countAttach, countDetach, countEstablished, countTerminated]

/-- Claim C5 (counterexample): in the `src/sip.tsx` variant, hangup on an
inbound session in INITIAL is a complete no-op — no reject, no flag
clearing, no ring stop — and hangup on an outbound session in INITIAL only
cancels, clearing nothing.  This contradicts "in both cases clears the
external identifier, the received and live-call flags, and stops ringing". -/
theorem hangup_sip_initial_no_cleanup :
    hangup sLiveInbound = { state := sLiveInbound, events := [], error := none } ∧
    sLiveInbound.isReceivedCall = true ∧
    sLiveInbound.externalNumber = "2002" ∧
    sLiveInbound.currentCall = true ∧
    hangup sOutInit = { state := sOutInit, events := [Event.cancel], error := none } ∧
    sOutInit.externalNumber = "1001" ∧
    sOutInit.currentCall = true := by decide

/-- Claim C5 (theorem, amended to the `src/unnamed/part_000` variant):
hangup on a session in INITIAL or ESTABLISHING cancels an outbound attempt
and rejects an inbound one, and in both cases clears the external
identifier, the received flag and the current-call flag, and stops the
ring. -/
theorem hangup_p0_initial_establishing (s : DialogState) (c : SipSession)
    (hs : s.dialog = some c)
    (hst : c.state = SessionState.Initial ∨ c.state = SessionState.Establishing) :
    hangup_p0 s =
      { state := { s with externalNumber := "", isReceivedCall := false, currentCall := false },
        events := if c.direction = Direction.Outbound then [Event.cancel, Event.endRing]
                  else [Event.reject none, Event.endRing],
        error := none } := by
  rcases hst with h | h <;> cases hd : c.direction <;> simp [hangup_p0, hs, h, hd]

/-- Claim C5 witness: the part_000 hangup evaluated on an inbound ringing
dialog in INITIAL. -/
theorem hangup_p0_initial_establishing_witness :
    p0Ring.dialog = some cInbInit ∧
    hangup_p0 p0Ring =
      { state := { p0Ring with externalNumber := "", isReceivedCall := false,
                               currentCall := false },
        events := if cInbInit.direction = Direction.Outbound then [Event.cancel, Event.endRing]
                  else [Event.reject none, Event.endRing],
        error := none } :=
  ⟨by decide, hangup_p0_initial_establishing p0Ring cInbInit (by decide) (Or.inl (by decide))⟩

/-- Claim C6 (theorem, amended to the `src/sip.tsx` variant): an inbound
invite admitted while auto-answer is on is accepted immediately — the only
emitted request is the accept, no ring is started, and the received flag is
not touched (the state differs from the pre-invite state only in the caller
identifier, the stored session and the current-call flag). -/
theorem onInvite_autoAnswer_accepts_no_ring (s : SipState) (name : String)
    (hcur : s.currentCall = false) (hauto : s.autoAnswer = true) :
    onInvite s name =
      ({ s with externalNumber := name,
                session := some { direction := Direction.Inbound,
                                  state := SessionState.Initial,
                                  remote := name },
                currentCall := true },
       [Event.accept]) := by
  simp [onInvite, hcur, hauto]

/-- Claim C6 witness: the auto-answer admission evaluated on a registered
idle endpoint. -/
theorem onInvite_autoAnswer_accepts_no_ring_witness :
    sAuto.currentCall = false ∧ sAuto.autoAnswer = true ∧
    onInvite sAuto "2002" =
      ({ sAuto with externalNumber := "2002",
                    session := some { direction := Direction.Inbound,
                                      state := SessionState.Initial,
                                      remote := "2002" },
                    currentCall := true },
       [Event.accept]) :=
  ⟨by decide, by decide, onInvite_autoAnswer_accepts_no_ring sAuto "2002" (by decide) (by decide)⟩

/-- Claim C6 (counterexample): in the `src/unnamed/part_000` variant an
inbound invite with auto-answer enabled still sets the received flag and
starts the ring, and emits no accept. -/
theorem onInvite_p0_rings_despite_autoAnswer :
    p0Auto.autoAnswer = true ∧
    (onInvite_p0 p0Auto "2002").1.isReceivedCall = true ∧
    (onInvite_p0 p0Auto "2002").2 = [Event.startRing] := by decide

/-- Claim C7 (theorem, amended to the `src/sip.tsx` variant): whenever a
session is stored, `answer()` accepts it unconditionally — in particular it
is never suppressed by the auto-answer flag being false, and it changes no
local state. -/
theorem answer_always_accepts (s : SipState) (c : SipSession)
    (hs : s.session = some c) :
    answer s = { state := s, events := [Event.accept], error := none } := by
  simp [answer, hs]

/-- Claim C7 witness: answer evaluated on an inbound INITIAL session with
auto-answer off still accepts. -/
theorem answer_always_accepts_witness :
    sLiveInbound.session =
      some { direction := Direction.Inbound, state := SessionState.Initial,
             remote := "2002" } ∧
    sLiveInbound.autoAnswer = false ∧
    answer sLiveInbound = { state := sLiveInbound, events := [Event.accept], error := none } :=
  ⟨by decide, by decide,
   answer_always_accepts sLiveInbound
     { direction := Direction.Inbound, state := SessionState.Initial, remote := "2002" }
     (by decide)⟩

/-- Claim C7 (counterexample): in the `src/unnamed/part_000` variant,
`answer()` with auto-answer off is suppressed — no accept is emitted even
though an inbound INITIAL dialog is ringing. -/
theorem answer_p0_suppressed_when_autoAnswer_false :
    p0Ring.autoAnswer = false ∧
    p0Ring.dialog = some cInbInit ∧
    answer_p0 p0Ring = { state := p0Ring, events := [], error := none } := by decide

/-- Claim C8 (counterexample): transfer performs no session-state check —
on an outbound session still in INITIAL a BLIND transfer succeeds and
issues the refer (it is neither a no-op nor an error); and an ATTENDED
transfer on an ESTABLISHED session constructs the replacement Inviter
without ever sending its invite (no invite-sent request is emitted). -/
theorem transfer_unguarded_and_no_invite_sent :
    sOutInit.session =
      some { direction := Direction.Outbound, state := SessionState.Initial,
             remote := "sip:1001@sip.example.com" } ∧
    transfer sOutInit "3003" TypeTranfer.BLIND =
      { state := sOutInit,
        events := [Event.refer (ReferTarget.uri "sip:3003@sip.example.com")],
        error := none } ∧
    transfer sEstOut "3003" TypeTranfer.ATTENDED =
      { state := sEstOut,
        events := [Event.newInviter "sip:3003@sip.example.com",
                   Event.refer (ReferTarget.session
                     { direction := Direction.Outbound, state := SessionState.Initial,
                       remote := "sip:3003@sip.example.com" })],
        error := none } := by decide

/-- Claim C8 (amended): whenever a session is stored, transfer issues the
refer regardless of the session's state (validity is left to the engine).
BLIND refers the stored session directly to the address built from the
destination plus the registered server's host part and creates no new
session; ATTENDED constructs a new outbound session object for that address
— without sending its invite — and refers the stored session using it as
the replacement target. -/
theorem transfer_blind_attended_mechanics (s : SipState) (c : SipSession)
    (d : String) (hs : s.session = some c) :
    transfer s d TypeTranfer.BLIND =
      { state := s,
        events := [Event.refer (ReferTarget.uri (mkTarget d s.server))],
        error := none } ∧
    transfer s d TypeTranfer.ATTENDED =
      { state := s,
        events := [Event.newInviter (mkTarget d s.server),
                   Event.refer (ReferTarget.session
                     { direction := Direction.Outbound, state := SessionState.Initial,
                       remote := mkTarget d s.server })],
        error := none } := by
  constructor <;> simp [transfer, hs]

/-- Claim C8 witness: the two transfer modes evaluated on an established
outbound call to 1001, transferring to 3003. -/
theorem transfer_blind_attended_mechanics_witness :
    sEstOut.session = some cEstOut ∧
    (transfer sEstOut "3003" TypeTranfer.BLIND =
      { state := sEstOut,
        events := [Event.refer (ReferTarget.uri (mkTarget "3003" sEstOut.server))],
        error := none } ∧
     transfer sEstOut "3003" TypeTranfer.ATTENDED =
      { state := sEstOut,
        events := [Event.newInviter (mkTarget "3003" sEstOut.server),
                   Event.refer (ReferTarget.session
                     { direction := Direction.Outbound, state := SessionState.Initial,
                       remote := mkTarget "3003" sEstOut.server })],
        error := none }) :=
  ⟨by decide, transfer_blind_attended_mechanics sEstOut cEstOut "3003" (by decide)⟩

/-- Claim C9: dtmf on a stored ESTABLISHED session sends exactly one INFO
request whose body is exactly Signal=(signal) CRLF Duration=(duration), and
returns the local state unchanged with no error. -/
theorem dtmf_payload_exact (s : SipState) (c : SipSession)
    (hs : s.session = some c) (_hst : c.state = SessionState.Established)
    (sig : String) (dur : Nat) :
    dtmf s sig dur =
      { state := s,
        events := [Event.info ("Signal=" ++ sig ++ "\r\nDuration=" ++ toString dur)],
        error := none } := by
  simp [dtmf, hs]

/-- Claim C9 witness: dtmf with signal 5 and duration 100 on the
established call produces the exact body Signal=5 CRLF Duration=100. -/
theorem dtmf_payload_exact_witness :
    sEstOut.session = some cEstOut ∧
    cEstOut.state = SessionState.Established ∧
    dtmf sEstOut "5" 100 =
      { state := sEstOut,
        events := [Event.info "Signal=5\r\nDuration=100"],
        error := none } :=
  ⟨by decide, by decide, dtmf_payload_exact sEstOut cEstOut (by decide) (by decide) "5" 100⟩

/-- Claim C10: with the session slot still holding its initial empty
placeholder, hangup is a silent no-op in both variants — no error, no
emitted request, and the entire observable state returned unchanged. -/
theorem hangup_no_session_noop (s : SipState) (t : DialogState)
    (hs : s.session = none) (ht : t.dialog = none) :
    hangup s = { state := s, events := [], error := none } ∧
    hangup_p0 t = { state := t, events := [], error := none } := by
  constructor <;> simp [hangup, hangup_p0, hs, ht]

/-- Claim C10 witness: hangup evaluated on the registered endpoints before
any call exists. -/
theorem hangup_no_session_noop_witness :
    sReg.session = none ∧ p0Init.dialog = none ∧
    (hangup sReg = { state := sReg, events := [], error := none } ∧
     hangup_p0 p0Init = { state := p0Init, events := [], error := none }) :=
  ⟨by decide, by decide, hangup_no_session_noop sReg p0Init (by decide) (by decide)⟩
